import Mathlib

/-!
Verification of the announcements router of a school-management backend
(`src/backend/routers/announcements.py`).

The module is embedded shallowly: the document store (MongoDB collection) is a
list of announcement documents, the credential store is the list of teacher
usernames present in `teachers_collection`, and every endpoint is a pure
function from the store state and the request parameters (plus the current
timestamp and, for `create`, the ObjectId the store would assign) to an HTTP
response and the new store state.

External library behaviour used by the code is modelled explicitly:
Python string comparison (code-point lexicographic, which is also MongoDB's
binary collation on strings), Python truthiness of optional strings,
`datetime.fromisoformat` (CPython's documented pre-3.11 grammar
`YYYY-MM-DD[*HH[:MM[:SS[.fff[fff]]]]][+HH:MM[:SS[.ffffff]]]`), `str.replace`,
and `bson.ObjectId` validity (24 hexadecimal characters).
-/

namespace Announcements

/-- Lexicographic strict order on character lists by code point, as Python
compares `str` values and as MongoDB's binary collation compares strings. -/
def lexLt : List Char → List Char → Bool
  | [], [] => false
  | [], _ :: _ => true
  | _ :: _, [] => false
  | a :: as, b :: bs => if a < b then true else if b < a then false else lexLt as bs

/-- Python's `s < t` on strings. -/
def strLt (s t : String) : Bool := lexLt s.data t.data

/-- Python truthiness of an `Optional[str]`: `None` and `""` are falsy. -/
def pyTruthy : Option String → Bool
  | none => false
  | some s => s != ""

/-- Numeric value of a decimal digit character. -/
def digitVal (c : Char) : Nat := c.toNat - '0'.toNat

/-- Reads exactly two decimal digits from the front of the list. -/
def twoDigits : List Char → Option (Nat × List Char)
  | c1 :: c2 :: rest =>
    if c1.isDigit && c2.isDigit then some (digitVal c1 * 10 + digitVal c2, rest) else none
  | _ => none

def isLeapYear (y : Nat) : Bool := (y % 4 == 0 && y % 100 != 0) || (y % 400 == 0)

def daysInMonth (y m : Nat) : Nat :=
  if m == 2 then (if isLeapYear y then 29 else 28)
  else if m == 4 || m == 6 || m == 9 || m == 11 then 30
  else 31

/-- Value of a list of decimal digits. -/
def digitsVal (cs : List Char) : Nat := cs.foldl (fun acc c => acc * 10 + digitVal c) 0

/-- Python `_parse_isoformat_date`: exactly `YYYY-MM-DD` with in-range month
and day (ranges enforced by the `datetime` constructor, `MINYEAR = 1`). -/
def parseIsoDateOk : List Char → Bool
  | [y1, y2, y3, y4, s1, m1, m2, s2, d1, d2] =>
    y1.isDigit && y2.isDigit && y3.isDigit && y4.isDigit && s1 == '-' &&
    m1.isDigit && m2.isDigit && s2 == '-' && d1.isDigit && d2.isDigit &&
    (let y := digitsVal [y1, y2, y3, y4]
     let m := digitsVal [m1, m2]
     let d := digitsVal [d1, d2]
     decide (1 ≤ y) && decide (1 ≤ m) && decide (m ≤ 12) &&
     decide (1 ≤ d) && decide (d ≤ daysInMonth y m))
  | _ => false

/-- Python `_parse_hh_mm_ss_ff`: `HH[:MM[:SS[.fff[fff]]]]`, consuming the whole
list; returns hour, minute, second and microsecond. -/
def parseHMSF (cs : List Char) : Option (Nat × Nat × Nat × Nat) :=
  match twoDigits cs with
  | none => none
  | some (hh, r1) =>
    match r1 with
    | [] => some (hh, 0, 0, 0)
    | ':' :: r2 =>
      match twoDigits r2 with
      | none => none
      | some (mm, r3) =>
        match r3 with
        | [] => some (hh, mm, 0, 0)
        | ':' :: r4 =>
          match twoDigits r4 with
          | none => none
          | some (ss, r5) =>
            match r5 with
            | [] => some (hh, mm, ss, 0)
            | '.' :: r6 =>
              if r6.length == 3 && r6.all Char.isDigit then
                some (hh, mm, ss, digitsVal r6 * 1000)
              else if r6.length == 6 && r6.all Char.isDigit then
                some (hh, mm, ss, digitsVal r6)
              else none
            | _ => none
        | _ => none
    | _ => none

/-- Splits a time string at the first `+` or `-` (the start of the UTC offset),
as CPython's `fromisoformat` does. -/
def splitAtSign : List Char → List Char × Option (List Char)
  | [] => ([], none)
  | c :: rest =>
    if c == '+' || c == '-' then ([], some rest)
    else
      let (a, b) := splitAtSign rest
      (c :: a, b)

/-- Validity of the UTC-offset part `HH:MM[:SS[.ffffff]]`: accepted lengths are
5, 8 or 15, the components parse, and the total offset is below 24 hours
(the `timezone` constructor's bound). -/
def tzOk (tz : List Char) : Bool :=
  (tz.length == 5 || tz.length == 8 || tz.length == 15) &&
  match parseHMSF tz with
  | some (h, m, s, f) => decide (h * 3600000000 + m * 60000000 + s * 1000000 + f < 86400000000)
  | none => false

/-- Python `_parse_isoformat_time`: time-of-day with in-range components,
optionally followed by a UTC offset. -/
def parseIsoTimeOk (cs : List Char) : Bool :=
  let (timestr, tzpart) := splitAtSign cs
  (match parseHMSF timestr with
   | some (h, m, s, _) => decide (h ≤ 23) && decide (m ≤ 59) && decide (s ≤ 59)
   | none => false) &&
  (match tzpart with
   | none => true
   | some tz => tzOk tz)

/-- Python `datetime.fromisoformat` (CPython's documented pre-3.11 grammar):
the first 10 characters must be a valid `YYYY-MM-DD`; a string of exactly 10
characters is a date; otherwise the character at index 10 is an arbitrary
separator and the characters from index 11 on must be a valid time (a string
of length 11 has an empty time part and is rejected). -/
def pyFromisoformatOk (s : String) : Bool :=
  let cs := s.data
  if cs.length < 10 then false
  else
    parseIsoDateOk (cs.take 10) &&
    (if cs.length == 10 then true
     else match cs.drop 11 with
       | [] => false
       | t => parseIsoTimeOk t)

/-- Python `s.replace('Z', '+00:00')`: every occurrence of `Z` is replaced. -/
def replaceZ (s : String) : String :=
  ⟨s.data.foldr
    (fun c acc => if c == 'Z' then '+' :: '0' :: '0' :: ':' :: '0' :: '0' :: acc else c :: acc)
    []⟩

/-- The date check the router performs:
`datetime.fromisoformat(s.replace('Z', '+00:00'))` succeeds. -/
def validDateString (s : String) : Bool := pyFromisoformatOk (replaceZ s)

/-- Validity of a `bson.ObjectId` string argument: 24 hexadecimal characters.
`ObjectId(announcement_id)` raises `InvalidId` for anything else. -/
def isValidObjectId (s : String) : Bool :=
  s.length == 24 && s.data.all (fun c => c.isDigit || ('a' ≤ c && c ≤ 'f') || ('A' ≤ c && c ≤ 'F'))

/-- An announcement document as stored in `announcements_collection`. `oid` is
the string form of the Mongo `_id`. -/
structure Ann where
  oid : String
  message : String
  expiration_date : String
  start_date : Option String
  created_by : String
  created_at : String
  updated_by : Option String := none
  updated_at : Option String := none
deriving Repr, DecidableEq

/-- A serialized announcement as returned to clients: the internal `_id` is
replaced by the `id` field (`serialize_announcement` in the source). -/
structure AnnOut where
  id : String
  message : String
  expiration_date : String
  start_date : Option String
  created_by : String
  created_at : String
  updated_by : Option String
  updated_at : Option String
deriving Repr, DecidableEq

/-- The `serialize_announcement` helper: convert a stored document to its
JSON-serializable form, with `id` replacing `_id`. -/
def serialize_announcement (a : Ann) : AnnOut :=
  { id := a.oid
    message := a.message
    expiration_date := a.expiration_date
    start_date := a.start_date
    created_by := a.created_by
    created_at := a.created_at
    updated_by := a.updated_by
    updated_at := a.updated_at }

/-- The store state: the announcements collection (in natural order) and the
set of `_id`s present in `teachers_collection`. -/
structure DB where
  announcements : List Ann
  teachers : List String
deriving Repr, DecidableEq

/-- An HTTP outcome: success with a status code and body, or an
`HTTPException` with a status code and detail message. -/
inductive Resp (α : Type) where
  | ok (status : Nat) (body : α)
  | err (status : Nat) (detail : String)
deriving Repr, DecidableEq

/-- The authentication block shared verbatim by the four protected handlers:
`if not teacher_username: 401 "Authentication required for this action"`,
then `teachers_collection.find_one({"_id": teacher_username})`,
`if not teacher: 401 "Invalid teacher credentials"`. -/
def checkAuth (db : DB) (tu : Option String) : Except (Nat × String) String :=
  match tu with
  | none => .error (401, "Authentication required for this action")
  | some u =>
    if u == "" then .error (401, "Authentication required for this action")
    else if db.teachers.contains u then .ok u
    else .error (401, "Invalid teacher credentials")

/-- The skip condition in `get_active_announcements`:
`if start_date and start_date > current_time: continue`. -/
def startBlocks (sd : Option String) (now : String) : Bool :=
  match sd with
  | none => false
  | some s => (s != "") && strLt now s

/-- The `GET /announcements` handler: select documents with
`expiration_date >= current_time` (Mongo `$gte`, binary string order), skip
those whose `start_date` is truthy and `> current_time`, and serialize. -/
def get_active_announcements (db : DB) (now : String) : List AnnOut :=
  ((db.announcements.filter (fun a => !(strLt a.expiration_date now))).filter
      (fun a => !(startBlocks a.start_date now))).map serialize_announcement

/-- The relation `x` may precede `y` in the descending `expiration_date` sort
of `GET /announcements/all` (`.sort("expiration_date", -1)`). -/
def descLe (x y : Ann) : Bool := !(strLt x.expiration_date y.expiration_date)

/-- The `GET /announcements/all` handler: authentication, then every document
sorted by `expiration_date` descending, serialized. -/
def get_all_announcements (db : DB) (tu : Option String) : Resp (List AnnOut) :=
  match checkAuth db tu with
  | .error (c, d) => .err c d
  | .ok _ => .ok 200 ((db.announcements.mergeSort descLe).map serialize_announcement)

/-- The `if start_date:` validation branch of `create` and `update`: an error
is raised when `start_date` is truthy (present and non-empty) and fails to
parse. -/
def startDateInvalid (sd : Option String) : Bool :=
  match sd with
  | none => false
  | some s => (s != "") && !(validDateString s)

/-- The `announcement_doc` built by the `create` handler, with the `_id` the
store assigns in `insert_one`. -/
def newDoc (message expiration_date : String) (start_date : Option String)
    (u now newOid : String) : Ann :=
  { oid := newOid
    message := message
    expiration_date := expiration_date
    start_date := start_date
    created_by := u
    created_at := now }

/-- The `POST /announcements` handler. `now` is `datetime.utcnow().isoformat()`
and `newOid` is the `_id` the store assigns in `insert_one`. -/
def create_announcement (db : DB) (message expiration_date : String)
    (start_date : Option String) (tu : Option String)
    (now newOid : String) : Resp AnnOut × DB :=
  match checkAuth db tu with
  | .error (c, d) => (.err c d, db)
  | .ok u =>
    if !(validDateString expiration_date) then
      (.err 400 "Invalid expiration_date format. Use ISO format.", db)
    else if startDateInvalid start_date then
      (.err 400 "Invalid start_date format. Use ISO format.", db)
    else
      (.ok 201 (serialize_announcement (newDoc message expiration_date start_date u now newOid)),
       { db with announcements :=
          db.announcements ++ [newDoc message expiration_date start_date u now newOid] })

/-- The `$set` document of the `update` handler applied to a stored document:
`message`, `expiration_date`, `start_date` are overwritten, `updated_by` and
`updated_at` are set, every other field is left as it was. -/
def applySet (a : Ann) (msg exp : String) (sd : Option String) (u now : String) : Ann :=
  { a with
    message := msg
    expiration_date := exp
    start_date := sd
    updated_by := some u
    updated_at := some now }

/-- Mongo `update_one` on `{"_id": id}` with the `$set` document used by the
`update` handler, followed by the handler's `find_one` on the same filter:
updates the first matching document and returns the new list together with the
document `find_one` then retrieves. `none` models `matched_count == 0`. -/
def updateFirst (l : List Ann) (id msg exp : String) (sd : Option String)
    (u now : String) : Option (List Ann × Ann) :=
  match l with
  | [] => none
  | a :: rest =>
    if a.oid == id then
      some (applySet a msg exp sd u now :: rest, applySet a msg exp sd u now)
    else
      match updateFirst rest id msg exp sd u now with
      | some (rest', d) => some (a :: rest', d)
      | none => none

/-- The `PUT /announcements/{announcement_id}` handler. -/
def update_announcement (db : DB) (announcement_id message expiration_date : String)
    (start_date : Option String) (tu : Option String) (now : String) :
    Resp AnnOut × DB :=
  match checkAuth db tu with
  | .error (c, d) => (.err c d, db)
  | .ok u =>
    if !(validDateString expiration_date) then
      (.err 400 "Invalid expiration_date format. Use ISO format.", db)
    else if startDateInvalid start_date then
      (.err 400 "Invalid start_date format. Use ISO format.", db)
    else if !(isValidObjectId announcement_id) then
      (.err 400 "Invalid announcement ID", db)
    else
      match updateFirst db.announcements announcement_id message expiration_date
          start_date u now with
      | none => (.err 404 "Announcement not found", db)
      | some (l, doc) =>
        (.ok 200 (serialize_announcement doc), { db with announcements := l })

/-- Mongo `delete_one` on `{"_id": id}`: removes the first matching document;
`none` models `deleted_count == 0`. -/
def deleteFirst (l : List Ann) (id : String) : Option (List Ann) :=
  match l with
  | [] => none
  | a :: rest =>
    if a.oid == id then some rest
    else
      match deleteFirst rest id with
      | some rest' => some (a :: rest')
      | none => none

/-- The `DELETE /announcements/{announcement_id}` handler; the success body is
`{"message": "Announcement deleted successfully"}`, modelled by its message. -/
def delete_announcement (db : DB) (announcement_id : String) (tu : Option String) :
    Resp String × DB :=
  match checkAuth db tu with
  | .error (c, d) => (.err c d, db)
  | .ok _ =>
    if !(isValidObjectId announcement_id) then
      (.err 400 "Invalid announcement ID", db)
    else
      match deleteFirst db.announcements announcement_id with
      | none => (.err 404 "Announcement not found", db)
      | some l => (.ok 200 "Announcement deleted successfully", { db with announcements := l })

/-! Concrete sample data used by the witnesses and counterexamples. -/

def oidA : String := "aaaaaaaaaaaaaaaaaaaaaaaa"

def oidB : String := "bbbbbbbbbbbbbbbbbbbbbbbb"

def oidC : String := "cccccccccccccccccccccccc"

/-- A sample stored announcement with no start date. -/
def docA : Ann :=
  { oid := oidA
    message := "welcome back"
    expiration_date := "2099-01-01T00:00:00"
    start_date := none
    created_by := "alice"
    created_at := "2025-01-01T00:00:00" }

/-- A sample stored announcement, expired and with a future start date. -/
def docB : Ann :=
  { oid := oidB
    message := "exam week"
    expiration_date := "2000-01-01T00:00:00"
    start_date := some "2098-01-01T00:00:00"
    created_by := "alice"
    created_at := "2025-01-01T00:00:00" }

/-- A sample store with one teacher and two announcements. -/
def dbW : DB := { announcements := [docA, docB], teachers := ["alice"] }

/-! Helper lemmas about the lexicographic order, the store primitives and the
`create` handler, shared by the claim theorems below. -/

theorem lexLt_nil (l : List Char) : lexLt l [] = false := by
  cases l <;> rfl

theorem lexLt_asymm (a b : List Char) (h : lexLt a b = true) : lexLt b a = false := by
  induction a generalizing b with
  | nil =>
    cases b with
    | nil => simp [lexLt] at h
    | cons d ds => simp [lexLt]
  | cons c cs ih =>
    cases b with
    | nil => simp [lexLt] at h
    | cons d ds =>
      simp only [lexLt] at h ⊢
      by_cases h1 : c < d
      · have h2 : ¬ d < c := lt_asymm h1
        simp [h1, h2]
      · by_cases h2 : d < c
        · simp [h1, h2] at h
        · simp [h1, h2] at h ⊢
          exact ih ds h

theorem lexLt_connect (a b c : List Char) (h : lexLt a c = true) :
    lexLt a b = true ∨ lexLt b c = true := by
  induction a generalizing b c with
  | nil =>
    cases c with
    | nil => simp [lexLt] at h
    | cons z zs =>
      cases b with
      | nil => right; simp [lexLt]
      | cons y ys => left; simp [lexLt]
  | cons x xs ih =>
    cases c with
    | nil => simp [lexLt] at h
    | cons z zs =>
      cases b with
      | nil => right; simp [lexLt]
      | cons y ys =>
        simp only [lexLt] at h ⊢
        rcases lt_trichotomy x y with h1 | h1 | h1
        · left; simp [h1]
        · subst h1
          by_cases h2 : x < z
          · right; simp [h2]
          · by_cases h3 : z < x
            · simp [h2, h3] at h
            · simp [h2, h3] at h
              rcases ih ys zs h with h4 | h4
              · left; simp [lt_irrefl, h4]
              · right; simp [h2, h3, h4]
        · right
          by_cases h2 : x < z
          · have : y < z := lt_trans h1 h2
            simp [this]
          · by_cases h3 : z < x
            · simp [h2, h3] at h
            · have hxz : x = z := le_antisymm (not_lt.mp h3) (not_lt.mp h2)
              subst hxz
              simp [h1]

theorem descLe_trans (a b c : Ann) (hab : descLe a b = true) (hbc : descLe b c = true) :
    descLe a c = true := by
  unfold descLe strLt at *
  rw [Bool.not_eq_true'] at hab hbc ⊢
  by_contra hac
  rw [Bool.not_eq_false] at hac
  rcases lexLt_connect _ b.expiration_date.data _ hac with h | h
  · rw [hab] at h; exact Bool.false_ne_true h
  · rw [hbc] at h; exact Bool.false_ne_true h

theorem descLe_total (a b : Ann) : (descLe a b || descLe b a) = true := by
  unfold descLe strLt
  by_cases h : lexLt a.expiration_date.data b.expiration_date.data = true
  · have := lexLt_asymm _ _ h
    simp [this]
  · rw [Bool.not_eq_true] at h
    simp [h]

theorem updateFirst_skip (id msg exp : String) (sd : Option String) (u now : String)
    (doc : Ann) (post : List Ann) (hdoc : doc.oid = id) (pre : List Ann)
    (hpre : ∀ b ∈ pre, b.oid ≠ id) :
    updateFirst (pre ++ doc :: post) id msg exp sd u now =
      some (pre ++ applySet doc msg exp sd u now :: post, applySet doc msg exp sd u now) := by
  induction pre with
  | nil =>
    simp only [List.nil_append, updateFirst]
    rw [hdoc]
    simp
  | cons a rest ih =>
    have ha : (a.oid == id) = false := by
      simp only [beq_eq_false_iff_ne, ne_eq]
      exact hpre a (List.mem_cons_self a rest)
    simp only [List.cons_append, updateFirst, ha, Bool.false_eq_true, if_false,
      List.append_eq]
    rw [ih (fun b hb => hpre b (List.mem_cons_of_mem a hb))]

theorem updateFirst_none (id msg exp : String) (sd : Option String) (u now : String)
    (l : List Ann) (hl : ∀ b ∈ l, b.oid ≠ id) :
    updateFirst l id msg exp sd u now = none := by
  induction l with
  | nil => rfl
  | cons a rest ih =>
    have ha : (a.oid == id) = false := by
      simp only [beq_eq_false_iff_ne, ne_eq]
      exact hl a (List.mem_cons_self a rest)
    simp only [updateFirst, ha, Bool.false_eq_true, if_false]
    rw [ih (fun b hb => hl b (List.mem_cons_of_mem a hb))]

theorem deleteFirst_skip (id : String) (doc : Ann) (post : List Ann)
    (hdoc : doc.oid = id) (pre : List Ann) (hpre : ∀ b ∈ pre, b.oid ≠ id) :
    deleteFirst (pre ++ doc :: post) id = some (pre ++ post) := by
  induction pre with
  | nil =>
    simp only [List.nil_append, deleteFirst]
    rw [hdoc]
    simp
  | cons a rest ih =>
    have ha : (a.oid == id) = false := by
      simp only [beq_eq_false_iff_ne, ne_eq]
      exact hpre a (List.mem_cons_self a rest)
    simp only [List.cons_append, deleteFirst, ha, Bool.false_eq_true, if_false,
      List.append_eq]
    rw [ih (fun b hb => hpre b (List.mem_cons_of_mem a hb))]

theorem deleteFirst_none (id : String) (l : List Ann) (hl : ∀ b ∈ l, b.oid ≠ id) :
    deleteFirst l id = none := by
  induction l with
  | nil => rfl
  | cons a rest ih =>
    have ha : (a.oid == id) = false := by
      simp only [beq_eq_false_iff_ne, ne_eq]
      exact hl a (List.mem_cons_self a rest)
    simp only [deleteFirst, ha, Bool.false_eq_true, if_false]
    rw [ih (fun b hb => hl b (List.mem_cons_of_mem a hb))]

theorem create_eq (db : DB) (u msg exp : String) (sd : Option String)
    (tu : Option String) (now noid : String)
    (hauth : checkAuth db tu = .ok u)
    (hexp : validDateString exp = true)
    (hsd : startDateInvalid sd = false) :
    create_announcement db msg exp sd tu now noid =
      (.ok 201 (serialize_announcement (newDoc msg exp sd u now noid)),
       { db with announcements := db.announcements ++ [newDoc msg exp sd u now noid] }) := by
  unfold create_announcement
  rw [hauth]
  simp [hexp, hsd]

theorem startDateInvalid_iff (sd : Option String) :
    startDateInvalid sd = true ↔ ∃ s, sd = some s ∧ s ≠ "" ∧ validDateString s = false := by
  cases sd with
  | none => simp [startDateInvalid]
  | some s => simp [startDateInvalid, Bool.and_eq_true, bne_iff_ne, Bool.not_eq_true']

/-- C1: for every store state and current timestamp, list-active returns
exactly the records whose `expiration_date` is lexically at or above the
current timestamp and whose `start_date` is absent or lexically at or below
it, each serialized with `id` replacing the internal identifier; it never
returns a record whose `expiration_date` is below the current time, nor one
whose `start_date` is present and above it. -/
theorem claim_C1_list_active (db : DB) (now : String) :
    get_active_announcements db now =
      (db.announcements.filter (fun a =>
        !(strLt a.expiration_date now) &&
        (match a.start_date with
         | none => true
         | some s => !(strLt now s)))).map serialize_announcement
    ∧ ∀ r ∈ get_active_announcements db now,
        strLt r.expiration_date now = false ∧
        ∀ s, r.start_date = some s → strLt now s = false := by
  have hempty : ∀ t : String, strLt t "" = false := by
    intro t
    have : ("" : String).data = [] := rfl
    unfold strLt
    rw [this]
    exact lexLt_nil t.data
  have hpt : ∀ a : Ann,
      (!(startBlocks a.start_date now) && !(strLt a.expiration_date now)) =
      (!(strLt a.expiration_date now) &&
        (match a.start_date with
         | none => true
         | some s => !(strLt now s))) := by
    intro a
    cases hsd : a.start_date with
    | none => simp [startBlocks]
    | some s =>
      by_cases hs : s = ""
      · subst hs
        simp [startBlocks, hempty]
      · have hne : (s != "") = true := by simp [hs]
        simp only [startBlocks, hne, Bool.true_and]
        exact Bool.and_comm _ _
  constructor
  · unfold get_active_announcements
    rw [List.filter_filter]
    exact congrArg _ (List.filter_congr (fun a _ => hpt a))
  · intro r hr
    unfold get_active_announcements at hr
    simp only [List.mem_map, List.mem_filter] at hr
    obtain ⟨a, ⟨⟨hmem, hq⟩, hp⟩, rfl⟩ := hr
    rw [Bool.not_eq_true'] at hq hp
    refine ⟨hq, ?_⟩
    intro s hs
    have hs' : a.start_date = some s := hs
    rw [hs'] at hp
    by_cases hse : s = ""
    · subst hse
      exact hempty now
    · have hne : (s != "") = true := by simp [hse]
      simp only [startBlocks, hne, Bool.true_and] at hp
      exact hp

/-- C1 witness: the theorem applied to the sample store at a fixed current
timestamp. -/
theorem claim_C1_witness :
    get_active_announcements dbW "2050-01-01T00:00:00" =
      (dbW.announcements.filter (fun a =>
        !(strLt a.expiration_date "2050-01-01T00:00:00") &&
        (match a.start_date with
         | none => true
         | some s => !(strLt "2050-01-01T00:00:00" s)))).map serialize_announcement
    ∧ ∀ r ∈ get_active_announcements dbW "2050-01-01T00:00:00",
        strLt r.expiration_date "2050-01-01T00:00:00" = false ∧
        ∀ s, r.start_date = some s → strLt "2050-01-01T00:00:00" s = false :=
  claim_C1_list_active dbW "2050-01-01T00:00:00"

/-- C4: an authenticated create with valid date strings persists a new record
holding the original input strings, with `created_by` the teacher username
and `created_at` the current server timestamp, appends it to the collection,
and returns 201 with the created record carrying the store-assigned id. -/
theorem claim_C4_create (db : DB) (u : String) (tu : Option String)
    (msg exp : String) (sd : Option String) (now noid : String)
    (hauth : checkAuth db tu = .ok u)
    (hexp : validDateString exp = true)
    (hsd : ∀ s, sd = some s → validDateString s = true) :
    create_announcement db msg exp sd tu now noid =
      (.ok 201
        { id := noid
          message := msg
          expiration_date := exp
          start_date := sd
          created_by := u
          created_at := now
          updated_by := none
          updated_at := none },
       { db with announcements := db.announcements ++ [newDoc msg exp sd u now noid] }) := by
  have hsd' : startDateInvalid sd = false := by
    cases hcase : sd with
    | none => rfl
    | some s => simp [startDateInvalid, hsd s hcase]
  rw [create_eq db u msg exp sd tu now noid hauth hexp hsd']
  rfl

/-- C4 witness: the theorem applied to a concrete store and request. -/
theorem claim_C4_witness :
    checkAuth dbW (some "alice") = .ok "alice" ∧
    validDateString "2099-01-01T00:00:00Z" = true ∧
    create_announcement dbW "hi" "2099-01-01T00:00:00Z" none (some "alice")
        "2025-06-01T12:00:00" oidC =
      (.ok 201
        { id := oidC
          message := "hi"
          expiration_date := "2099-01-01T00:00:00Z"
          start_date := none
          created_by := "alice"
          created_at := "2025-06-01T12:00:00"
          updated_by := none
          updated_at := none },
       { dbW with announcements :=
          dbW.announcements ++ [newDoc "hi" "2099-01-01T00:00:00Z" none "alice"
            "2025-06-01T12:00:00" oidC] }) :=
  ⟨rfl, by decide,
    claim_C4_create dbW "alice" (some "alice") "hi" "2099-01-01T00:00:00Z" none
      "2025-06-01T12:00:00" oidC rfl (by decide) (fun s h => nomatch h)⟩

/-- C10: supplying `teacher_username` as the empty string behaves exactly like
omitting it: each of the four authenticated operations fails with 401
"Authentication required for this action" and not with
"Invalid teacher credentials". -/
theorem claim_C10_empty_username (db : DB) (msg exp : String) (sd : Option String)
    (aid now noid : String) :
    (get_all_announcements db (some "") = get_all_announcements db none ∧
      create_announcement db msg exp sd (some "") now noid =
        create_announcement db msg exp sd none now noid ∧
      update_announcement db aid msg exp sd (some "") now =
        update_announcement db aid msg exp sd none now ∧
      delete_announcement db aid (some "") = delete_announcement db aid none) ∧
    (get_all_announcements db (some "") =
        .err 401 "Authentication required for this action" ∧
      (create_announcement db msg exp sd (some "") now noid).1 =
        .err 401 "Authentication required for this action" ∧
      (update_announcement db aid msg exp sd (some "") now).1 =
        .err 401 "Authentication required for this action" ∧
      (delete_announcement db aid (some "")).1 =
        .err 401 "Authentication required for this action") :=
  ⟨⟨rfl, rfl, rfl, rfl⟩, rfl, rfl, rfl, rfl⟩

/-- C10 witness: the theorem applied to the sample store and a concrete
request. -/
theorem claim_C10_witness :
    get_all_announcements dbW (some "") = get_all_announcements dbW none ∧
    get_all_announcements dbW (some "") =
      .err 401 "Authentication required for this action" :=
  ⟨(claim_C10_empty_username dbW "m" "2099-01-01T00:00:00Z" none oidA "t" oidC).1.1,
   (claim_C10_empty_username dbW "m" "2099-01-01T00:00:00Z" none oidA "t" oidC).2.1⟩

/-- C2 counterexample: with credential store `["alice"]`, the supplied (hence
present) username `""` does not resolve, yet all four operations answer 401
"Authentication required for this action" rather than the claimed
"Invalid teacher credentials"; so the claim as stated is false. -/
theorem claim_C2_counterexample :
    dbW.teachers.contains "" = false ∧
    get_all_announcements dbW (some "") =
      .err 401 "Authentication required for this action" ∧
    (create_announcement dbW "m" "2099-01-01T00:00:00Z" none (some "") "t" oidC).1 =
      .err 401 "Authentication required for this action" ∧
    (update_announcement dbW oidA "m" "2099-01-01T00:00:00Z" none (some "") "t").1 =
      .err 401 "Authentication required for this action" ∧
    (delete_announcement dbW oidA (some "")).1 =
      .err 401 "Authentication required for this action" ∧
    "Authentication required for this action" ≠ "Invalid teacher credentials" :=
  ⟨rfl, rfl, rfl, rfl, rfl, by decide⟩

/-- C2 (amended): for each of the four authenticated operations, an absent or
empty `teacher_username` yields 401 "Authentication required for this action";
a non-empty one that does not resolve in the credential store yields 401
"Invalid teacher credentials"; a non-empty one that resolves never yields
a 401. -/
theorem claim_C2_auth (db : DB) (tu : Option String) (msg exp : String)
    (sd : Option String) (aid now noid : String) :
    ((tu = none ∨ tu = some "") →
      get_all_announcements db tu = .err 401 "Authentication required for this action" ∧
      (create_announcement db msg exp sd tu now noid).1 =
        .err 401 "Authentication required for this action" ∧
      (update_announcement db aid msg exp sd tu now).1 =
        .err 401 "Authentication required for this action" ∧
      (delete_announcement db aid tu).1 =
        .err 401 "Authentication required for this action") ∧
    (∀ u, tu = some u → u ≠ "" → db.teachers.contains u = false →
      get_all_announcements db tu = .err 401 "Invalid teacher credentials" ∧
      (create_announcement db msg exp sd tu now noid).1 =
        .err 401 "Invalid teacher credentials" ∧
      (update_announcement db aid msg exp sd tu now).1 =
        .err 401 "Invalid teacher credentials" ∧
      (delete_announcement db aid tu).1 = .err 401 "Invalid teacher credentials") ∧
    (∀ u, tu = some u → u ≠ "" → db.teachers.contains u = true →
      (∀ d, get_all_announcements db tu ≠ .err 401 d) ∧
      (∀ d, (create_announcement db msg exp sd tu now noid).1 ≠ .err 401 d) ∧
      (∀ d, (update_announcement db aid msg exp sd tu now).1 ≠ .err 401 d) ∧
      (∀ d, (delete_announcement db aid tu).1 ≠ .err 401 d)) := by
  refine ⟨?_, ?_, ?_⟩
  · rintro (rfl | rfl) <;> exact ⟨rfl, rfl, rfl, rfl⟩
  · rintro u rfl hu hres
    have hbeq : (u == "") = false := by simpa using hu
    have hmem : u ∉ db.teachers := by simpa using hres
    refine ⟨?_, ?_, ?_, ?_⟩
    · simp [get_all_announcements, checkAuth, hbeq, hmem]
    · simp [create_announcement, checkAuth, hbeq, hmem]
    · simp [update_announcement, checkAuth, hbeq, hmem]
    · simp [delete_announcement, checkAuth, hbeq, hmem]
  · rintro u rfl hu hres
    have hbeq : (u == "") = false := by simpa using hu
    have hmem : u ∈ db.teachers := by simpa using hres
    have hauth : checkAuth db (some u) = .ok u := by
      simp [checkAuth, hbeq, hmem]
    refine ⟨?_, ?_, ?_, ?_⟩
    · intro d
      simp [get_all_announcements, hauth]
    · intro d
      simp only [create_announcement, hauth]
      split
      · simp
      · split
        · simp
        · simp
    · intro d
      simp only [update_announcement, hauth]
      split
      · simp
      · split
        · simp
        · split
          · simp
          · split
            · simp
            · simp
    · intro d
      simp only [delete_announcement, hauth]
      split
      · simp
      · split
        · simp
        · simp

/-- C2 witness: the amended theorem applied to a store whose only teacher is
`alice`, with the unknown username `mallory`. -/
theorem claim_C2_witness :
    get_all_announcements dbW (some "mallory") = .err 401 "Invalid teacher credentials" ∧
    (delete_announcement dbW oidA (some "mallory")).1 =
      .err 401 "Invalid teacher credentials" := by
  have h := (claim_C2_auth dbW (some "mallory") "m" "2099-01-01T00:00:00Z" none oidA
    "t" oidC).2.1 "mallory" rfl (by decide) (by decide)
  exact ⟨h.1, h.2.2.2⟩

/-- C3 counterexample: an authenticated create whose `start_date` is the
provided but unparseable empty string succeeds with 201 instead of failing
with 400 "Invalid start_date format": Python truthiness skips validation of
an empty `start_date`, so the claimed equivalence is false as stated. -/
theorem claim_C3_counterexample :
    checkAuth dbW (some "alice") = .ok "alice" ∧
    validDateString "" = false ∧
    (create_announcement dbW "m" "2099-01-01T00:00:00Z" (some "") (some "alice")
        "t" oidC).1 =
      .ok 201 (serialize_announcement
        (newDoc "m" "2099-01-01T00:00:00Z" (some "") "alice" "t" oidC)) ∧
    (create_announcement dbW "m" "2099-01-01T00:00:00Z" (some "") (some "alice")
        "t" oidC).1 ≠
      .err 400 "Invalid start_date format. Use ISO format." :=
  ⟨rfl, by decide, rfl, by decide⟩

/-- C3 (amended): for every authenticated call to create, and identically to
update, the call fails with 400 "Invalid expiration_date format" iff
`expiration_date` fails the ISO-8601 parse (with `Z` replaced by `+00:00`);
and it fails with 400 "Invalid start_date format" iff `expiration_date`
passes and `start_date` is provided, non-empty and fails the same parse —
an empty `start_date` is treated as absent and is not validated. -/
theorem claim_C3_dates (db : DB) (u : String) (tu : Option String)
    (msg exp : String) (sd : Option String) (aid now noid : String)
    (hauth : checkAuth db tu = .ok u) :
    (∀ s : Option String, startDateInvalid s = true ↔
      ∃ t, s = some t ∧ t ≠ "" ∧ validDateString t = false) ∧
    ((create_announcement db msg exp sd tu now noid).1 =
        .err 400 "Invalid expiration_date format. Use ISO format." ↔
      validDateString exp = false) ∧
    ((create_announcement db msg exp sd tu now noid).1 =
        .err 400 "Invalid start_date format. Use ISO format." ↔
      validDateString exp = true ∧ startDateInvalid sd = true) ∧
    ((update_announcement db aid msg exp sd tu now).1 =
        .err 400 "Invalid expiration_date format. Use ISO format." ↔
      validDateString exp = false) ∧
    ((update_announcement db aid msg exp sd tu now).1 =
        .err 400 "Invalid start_date format. Use ISO format." ↔
      validDateString exp = true ∧ startDateInvalid sd = true) := by
  refine ⟨startDateInvalid_iff, ?_, ?_, ?_, ?_⟩
  · cases he : validDateString exp with
    | false => cases hs : startDateInvalid sd <;> simp [create_announcement, hauth, he, hs]
    | true => cases hs : startDateInvalid sd <;> simp [create_announcement, hauth, he, hs]
  · cases he : validDateString exp with
    | false => cases hs : startDateInvalid sd <;> simp [create_announcement, hauth, he, hs]
    | true => cases hs : startDateInvalid sd <;> simp [create_announcement, hauth, he, hs]
  · cases he : validDateString exp with
    | false =>
      cases hs : startDateInvalid sd <;>
        simp [update_announcement, hauth, he, hs]
    | true =>
      cases hs : startDateInvalid sd with
      | false =>
        cases hv : isValidObjectId aid with
        | false => simp [update_announcement, hauth, he, hs, hv]
        | true =>
          cases hm : updateFirst db.announcements aid msg exp sd u now with
          | none => simp [update_announcement, hauth, he, hs, hv, hm]
          | some p => simp [update_announcement, hauth, he, hs, hv, hm]
      | true => simp [update_announcement, hauth, he, hs]
  · cases he : validDateString exp with
    | false =>
      cases hs : startDateInvalid sd <;>
        simp [update_announcement, hauth, he, hs]
    | true =>
      cases hs : startDateInvalid sd with
      | false =>
        cases hv : isValidObjectId aid with
        | false => simp [update_announcement, hauth, he, hs, hv]
        | true =>
          cases hm : updateFirst db.announcements aid msg exp sd u now with
          | none => simp [update_announcement, hauth, he, hs, hv, hm]
          | some p => simp [update_announcement, hauth, he, hs, hv, hm]
      | true => simp [update_announcement, hauth, he, hs]

/-- C3 witness: the amended theorem applied to a concrete authenticated
request with an unparseable expiration date. -/
theorem claim_C3_witness :
    checkAuth dbW (some "alice") = .ok "alice" ∧
    ((create_announcement dbW "m" "not-a-date" none (some "alice") "t" oidC).1 =
        .err 400 "Invalid expiration_date format. Use ISO format." ↔
      validDateString "not-a-date" = false) :=
  ⟨rfl, (claim_C3_dates dbW "alice" (some "alice") "m" "not-a-date" none oidA
    "t" oidC rfl).2.1⟩

/-- C5: for authenticated update (with valid dates) and delete, a
syntactically invalid store identifier — the only way the single-record store
call can raise — yields 400 "Invalid announcement ID" instead of a raw store
error, and a well-formed identifier matching no record yields 404. -/
theorem claim_C5_identifier (db : DB) (u : String) (tu : Option String)
    (msg exp : String) (sd : Option String) (aid now : String)
    (hauth : checkAuth db tu = .ok u)
    (hexp : validDateString exp = true)
    (hsd : startDateInvalid sd = false) :
    (isValidObjectId aid = false →
      (update_announcement db aid msg exp sd tu now).1 =
        .err 400 "Invalid announcement ID" ∧
      (delete_announcement db aid tu).1 = .err 400 "Invalid announcement ID") ∧
    (isValidObjectId aid = true → (∀ a ∈ db.announcements, a.oid ≠ aid) →
      (update_announcement db aid msg exp sd tu now).1 =
        .err 404 "Announcement not found" ∧
      (delete_announcement db aid tu).1 = .err 404 "Announcement not found") := by
  constructor
  · intro hv
    constructor
    · simp [update_announcement, hauth, hexp, hsd, hv]
    · simp [delete_announcement, hauth, hv]
  · intro hv hnone
    constructor
    · simp [update_announcement, hauth, hexp, hsd, hv,
        updateFirst_none aid msg exp sd u now db.announcements hnone]
    · simp [delete_announcement, hauth, hv, deleteFirst_none aid db.announcements hnone]

/-- C5 witness: the theorem applied to a malformed identifier and to a
well-formed identifier that matches no stored record. -/
theorem claim_C5_witness :
    checkAuth dbW (some "alice") = .ok "alice" ∧
    isValidObjectId "zzz" = false ∧
    (delete_announcement dbW "zzz" (some "alice")).1 =
      .err 400 "Invalid announcement ID" ∧
    isValidObjectId oidC = true ∧
    (delete_announcement dbW oidC (some "alice")).1 =
      .err 404 "Announcement not found" := by
  have h1 := claim_C5_identifier dbW "alice" (some "alice") "m" "2099-01-01" none
    "zzz" "t" rfl (by decide) rfl
  have h2 := claim_C5_identifier dbW "alice" (some "alice") "m" "2099-01-01" none
    oidC "t" rfl (by decide) rfl
  exact ⟨rfl, by decide, (h1.1 (by decide)).2, by decide,
    (h2.2 (by decide) (by decide)).2⟩

/-- C6: a successful authenticated update of an existing record overwrites
`message`, `expiration_date` and `start_date` unconditionally (including
replacing a stored `start_date` by the absent value), sets `updated_by` and
`updated_at`, leaves `id`, `created_by`, `created_at` and every other stored
record untouched, and returns the serialized updated record with 200. -/
theorem claim_C6_update (db : DB) (u : String) (tu : Option String)
    (msg exp : String) (sd : Option String) (aid now : String)
    (pre post : List Ann) (doc : Ann)
    (hauth : checkAuth db tu = .ok u)
    (hexp : validDateString exp = true)
    (hsd : startDateInvalid sd = false)
    (hid : isValidObjectId aid = true)
    (hsplit : db.announcements = pre ++ doc :: post)
    (hdoc : doc.oid = aid)
    (hpre : ∀ b ∈ pre, b.oid ≠ aid) :
    update_announcement db aid msg exp sd tu now =
      (.ok 200 (serialize_announcement (applySet doc msg exp sd u now)),
       { db with announcements := pre ++ applySet doc msg exp sd u now :: post }) ∧
    (applySet doc msg exp sd u now).oid = doc.oid ∧
    (applySet doc msg exp sd u now).created_by = doc.created_by ∧
    (applySet doc msg exp sd u now).created_at = doc.created_at ∧
    (applySet doc msg exp sd u now).message = msg ∧
    (applySet doc msg exp sd u now).expiration_date = exp ∧
    (applySet doc msg exp sd u now).start_date = sd ∧
    (applySet doc msg exp sd u now).updated_by = some u ∧
    (applySet doc msg exp sd u now).updated_at = some now := by
  refine ⟨?_, rfl, rfl, rfl, rfl, rfl, rfl, rfl, rfl⟩
  unfold update_announcement
  rw [hauth]
  simp only [hexp, hsd, hid, Bool.not_true, Bool.false_eq_true, if_false]
  rw [hsplit, updateFirst_skip aid msg exp sd u now doc post hdoc pre hpre]

/-- C6 witness: the theorem applied to the two-record sample store, updating
the second record and dropping its stored start date. -/
theorem claim_C6_witness :
    checkAuth dbW (some "alice") = .ok "alice" ∧
    dbW.announcements = [docA] ++ docB :: [] ∧
    update_announcement dbW oidB "updated" "2099-12-31T00:00:00" none
        (some "alice") "2025-06-01T00:00:00" =
      (.ok 200 (serialize_announcement
        (applySet docB "updated" "2099-12-31T00:00:00" none "alice"
          "2025-06-01T00:00:00")),
       { dbW with announcements := ([docA] ++
          applySet docB "updated" "2099-12-31T00:00:00" none "alice"
            "2025-06-01T00:00:00" :: []) }) := by
  refine ⟨rfl, rfl, ?_⟩
  exact (claim_C6_update dbW "alice" (some "alice") "updated" "2099-12-31T00:00:00"
    none oidB "2025-06-01T00:00:00" [docA] [] docB rfl (by decide) rfl (by decide)
    rfl rfl (by decide)).1

/-- C7: a successful authenticated delete of an existing record removes it
permanently and returns 200 with the confirmation message; deleting the same
well-formed identifier again fails with 404 instead of succeeding as a
no-op. -/
theorem claim_C7_delete (db : DB) (u : String) (tu : Option String) (aid : String)
    (pre post : List Ann) (doc : Ann)
    (hauth : checkAuth db tu = .ok u)
    (hid : isValidObjectId aid = true)
    (hsplit : db.announcements = pre ++ doc :: post)
    (hdoc : doc.oid = aid)
    (hpre : ∀ b ∈ pre, b.oid ≠ aid)
    (hpost : ∀ b ∈ post, b.oid ≠ aid) :
    delete_announcement db aid tu =
      (.ok 200 "Announcement deleted successfully",
       { db with announcements := pre ++ post }) ∧
    delete_announcement { db with announcements := pre ++ post } aid tu =
      (.err 404 "Announcement not found",
       { db with announcements := pre ++ post }) := by
  have hauth2 : checkAuth { db with announcements := pre ++ post } tu = .ok u := hauth
  constructor
  · unfold delete_announcement
    rw [hauth]
    simp only [hid, Bool.not_true, Bool.false_eq_true, if_false]
    rw [hsplit, deleteFirst_skip aid doc post hdoc pre hpre]
  · unfold delete_announcement
    rw [hauth2]
    simp only [hid, Bool.not_true, Bool.false_eq_true, if_false]
    have hgone : deleteFirst (pre ++ post) aid = none := by
      apply deleteFirst_none
      intro b hb
      rcases List.mem_append.mp hb with h | h
      · exact hpre b h
      · exact hpost b h
    rw [hgone]

/-- C7 witness: the theorem applied to the sample store, deleting the first
record and then deleting it a second time. -/
theorem claim_C7_witness :
    delete_announcement dbW oidA (some "alice") =
      (.ok 200 "Announcement deleted successfully",
       { dbW with announcements := [] ++ [docB] }) ∧
    delete_announcement { dbW with announcements := [] ++ [docB] } oidA
        (some "alice") =
      (.err 404 "Announcement not found",
       { dbW with announcements := [] ++ [docB] }) :=
  claim_C7_delete dbW "alice" (some "alice") oidA [] [docB] docA rfl (by decide)
    rfl rfl (by decide) (by decide)

/-- C8: a successful authenticated list-all returns every stored record —
expired and not-yet-started ones included — serialized with `id` replacing
the internal identifier, sorted by `expiration_date` in descending lexical
order. -/
theorem claim_C8_list_all (db : DB) (tu : Option String) (u : String)
    (hauth : checkAuth db tu = .ok u) :
    ∃ l, get_all_announcements db tu = .ok 200 l ∧
      l.Perm (db.announcements.map serialize_announcement) ∧
      l.Pairwise (fun x y => strLt x.expiration_date y.expiration_date = false) := by
  refine ⟨(db.announcements.mergeSort descLe).map serialize_announcement, ?_, ?_, ?_⟩
  · unfold get_all_announcements
    rw [hauth]
  · exact (List.mergeSort_perm db.announcements descLe).map serialize_announcement
  · have hs := @List.sorted_mergeSort Ann descLe descLe_trans descLe_total
      db.announcements
    refine List.Pairwise.map serialize_announcement ?_ hs
    intro a b hab
    simpa [descLe, serialize_announcement] using hab

/-- C8 witness: the theorem applied to the sample store, whose records are
stored in ascending expiration order. -/
theorem claim_C8_witness :
    ∃ l, get_all_announcements dbW (some "alice") = .ok 200 l ∧
      l.Perm (dbW.announcements.map serialize_announcement) ∧
      l.Pairwise (fun x y => strLt x.expiration_date y.expiration_date = false) :=
  claim_C8_list_all dbW (some "alice") "alice" rfl

/-- C9: a record created by a successful create appears in a subsequent
list-all (with no intervening change) with the id create returned and with
`message`, `expiration_date` and `start_date` identical to the values create
returned. -/
theorem claim_C9_roundtrip (db : DB) (u u2 : String) (tu tu2 : Option String)
    (msg exp : String) (sd : Option String) (now noid : String)
    (out : AnnOut) (db2 : DB)
    (hauth : checkAuth db tu = .ok u)
    (hexp : validDateString exp = true)
    (hsd : startDateInvalid sd = false)
    (hcreate : create_announcement db msg exp sd tu now noid = (.ok 201 out, db2))
    (hauth2 : checkAuth db2 tu2 = .ok u2) :
    ∃ l, get_all_announcements db2 tu2 = .ok 200 l ∧
      ∃ r ∈ l, r.id = out.id ∧ r.message = out.message ∧
        r.expiration_date = out.expiration_date ∧
        r.start_date = out.start_date := by
  have hc := create_eq db u msg exp sd tu now noid hauth hexp hsd
  rw [hcreate] at hc
  have hout : out = serialize_announcement (newDoc msg exp sd u now noid) := by
    have h1 := congrArg Prod.fst hc
    simpa using h1
  have hdb2 : db2 =
      { db with announcements := db.announcements ++ [newDoc msg exp sd u now noid] } := by
    have h2 := congrArg Prod.snd hc
    simpa using h2
  refine ⟨(db2.announcements.mergeSort descLe).map serialize_announcement, ?_, ?_⟩
  · unfold get_all_announcements
    rw [hauth2]
  · refine ⟨serialize_announcement (newDoc msg exp sd u now noid), ?_, ?_, ?_, ?_, ?_⟩
    · have hmem : newDoc msg exp sd u now noid ∈ db2.announcements := by
        rw [hdb2]
        simp
      have hmap : serialize_announcement (newDoc msg exp sd u now noid) ∈
          db2.announcements.map serialize_announcement :=
        List.mem_map_of_mem _ hmem
      exact ((List.mergeSort_perm db2.announcements descLe).map
        serialize_announcement).mem_iff.mpr hmap
    · rw [hout]
    · rw [hout]
    · rw [hout]
    · rw [hout]

/-- C9 witness: the theorem applied to a concrete create on the sample store
followed by a list-all on the resulting store. -/
theorem claim_C9_witness :
    ∃ l, get_all_announcements
        { dbW with announcements := dbW.announcements ++
            [newDoc "hello" "2099-06-01T00:00:00Z" none "alice"
              "2025-06-01T00:00:00" oidC] }
        (some "alice") = .ok 200 l ∧
      ∃ r ∈ l,
        r.id = (serialize_announcement (newDoc "hello" "2099-06-01T00:00:00Z" none
          "alice" "2025-06-01T00:00:00" oidC)).id ∧
        r.message = (serialize_announcement (newDoc "hello" "2099-06-01T00:00:00Z"
          none "alice" "2025-06-01T00:00:00" oidC)).message ∧
        r.expiration_date = (serialize_announcement (newDoc "hello"
          "2099-06-01T00:00:00Z" none "alice" "2025-06-01T00:00:00" oidC)).expiration_date ∧
        r.start_date = (serialize_announcement (newDoc "hello"
          "2099-06-01T00:00:00Z" none "alice" "2025-06-01T00:00:00" oidC)).start_date :=
  claim_C9_roundtrip dbW "alice" "alice" (some "alice") (some "alice") "hello"
    "2099-06-01T00:00:00Z" none "2025-06-01T00:00:00" oidC
    (serialize_announcement (newDoc "hello" "2099-06-01T00:00:00Z" none "alice"
      "2025-06-01T00:00:00" oidC))
    { dbW with announcements := dbW.announcements ++
        [newDoc "hello" "2099-06-01T00:00:00Z" none "alice"
          "2025-06-01T00:00:00" oidC] }
    rfl (by decide) rfl rfl rfl

end Announcements
